import Mathlib

/-!
Verification of the response cache and OpenAI service layer of the Likable server.

Shallow embedding of:
  * the in-memory response cache (class SimpleCache and createCacheKey,
    server/cache module),
  * generateCode and generateChatResponse (server/services/openai.ts).

Time (Date.now(), milliseconds) is passed explicitly as a Nat.  The OpenAI
network call is an oracle parameter (ApiOutcome); JSON.parse is an abstract
parameter (String → Option Json).  JavaScript `undefined` for optional values
is Option.none, and JS truthiness is modelled explicitly where the source
relies on it.
-/

namespace Likable

/-! ### The cache module -/

/-- One entry of the cache map: `{ data: any; timestamp: number; ttl: number }`.
`timestamp` is the Date.now() at store time, `ttl` is in milliseconds. -/
structure CacheEntry (α : Type) where
  data : α
  timestamp : Nat
  ttl : Nat

/-- The private `Map<string, ...>` of SimpleCache, as a partial map. -/
def Cache (α : Type) : Type := String → Option (CacheEntry α)

/-- A freshly constructed SimpleCache: the map is empty. -/
def emptyCache {α : Type} : Cache α := fun _ => none

namespace SimpleCache

/-- Method set(key, data, ttlMinutes): insert or overwrite, with
`timestamp: Date.now()` and `ttl: ttlMinutes * 60 * 1000`. -/
def set {α : Type} (c : Cache α) (key : String) (data : α) (now : Nat)
    (ttlMinutes : Nat) : Cache α :=
  fun k => if k = key then some ⟨data, now, ttlMinutes * 60 * 1000⟩ else c k

/-- Method get(key): returns null when the key is absent; when
`Date.now() - item.timestamp > item.ttl` the entry is deleted and null is
returned; otherwise `item.data`.  Returns the looked-up value together with
the map after the call (get mutates the map on expiry). -/
def get {α : Type} (c : Cache α) (key : String) (now : Nat) :
    Option α × Cache α :=
  match c key with
  | none => (none, c)
  | some item =>
    if now - item.timestamp > item.ttl then
      (none, fun k => if k = key then none else c k)
    else
      (some item.data, c)

/-- Method clear(): empties the map. -/
def clear {α : Type} (_ : Cache α) : Cache α := fun _ => none

/-- Method cleanup(): deletes every entry with `now - item.timestamp > item.ttl`
(run by the periodic background sweep). -/
def cleanup {α : Type} (c : Cache α) (now : Nat) : Cache α :=
  fun k =>
    match c k with
    | none => none
    | some item =>
      if now - item.timestamp > item.ttl then none else some item

end SimpleCache

/-- One element of a conversationHistory array:
`{ role: string; content: string }`. -/
structure ChatMessage where
  role : String
  content : String

/-- JS `s.slice(0, n)`: the first n characters. -/
def jsSlice (s : String) (n : Nat) : String := String.mk (s.data.take n)

/-- JS `arr.join(sep)`. -/
def jsJoin (sep : String) : List String → String
  | [] => ""
  | x :: xs => xs.foldl (fun acc y => acc ++ sep ++ y) x

/-- JS `s.trim()`: strip leading and trailing whitespace. -/
def jsTrim (s : String) : String :=
  String.mk (((s.data.dropWhile Char.isWhitespace).reverse.dropWhile
    Char.isWhitespace).reverse)

/-- The regex replace of /\s+/g by a single space, scanning left to right: a
whitespace character opens (or continues) a run; the first character of each
run is emitted as a single space and the rest of the run is dropped.  The
flag records whether the previous character was part of a whitespace run. -/
def collapseWsGo (prevWs : Bool) : List Char → List Char
  | [] => []
  | c :: rest =>
    if c.isWhitespace then
      if prevWs then collapseWsGo true rest
      else ' ' :: collapseWsGo true rest
    else
      c :: collapseWsGo false rest

/-- The regex replace of /\s+/g by a single space, on strings. -/
def collapseWs (s : String) : String := String.mk (collapseWsGo false s.data)

/-- createCacheKey(prompt, conversationHistory) from the cache module:

  const contextStr = conversationHistory?.slice(-3)
      .map(m => role + ":" + m.content.slice(0, 100)).join("|") || "";
  return (prompt.slice(0, 200) + "|" + contextStr).replace(/\s+/g, " ");

`slice(-3)` is `drop (length - 3)`; `|| ""` only replaces an empty join by
itself, so it is dropped.  Note the signature takes exactly two parameters. -/
def createCacheKey (prompt : String)
    (conversationHistory : Option (List ChatMessage)) : String :=
  let contextStr :=
    match conversationHistory with
    | none => ""
    | some h =>
      jsJoin "|"
        ((h.drop (h.length - 3)).map
          (fun m => m.role ++ ":" ++ jsSlice m.content 100))
  collapseWs (jsSlice prompt 200 ++ "|" ++ contextStr)

/-! ### JSON values and JavaScript truthiness -/

/-- The values JSON.parse can produce (numbers are modelled as integers;
no claim depends on fractional numbers). -/
inductive Json where
  | jnull
  | jbool (b : Bool)
  | jnum (n : Int)
  | jstr (s : String)
  | jarr (elems : List Json)
  | jobj (fields : List (String × Json))

/-- JavaScript truthiness of a JSON value. -/
def Json.isTruthy : Json → Bool
  | .jnull => false
  | .jbool b => b
  | .jnum n => n != 0
  | .jstr s => s != ""
  | .jarr _ => true
  | .jobj _ => true

/-- Property access `j.name`: none models JS undefined (missing field, or
access on a non-object).  JSON.parse keeps at most one binding per key
(a later duplicate overwrites an earlier one), so field lists are keyed
uniquely and first-match lookup is adequate. -/
def Json.field (j : Json) (name : String) : Option Json :=
  match j with
  | .jobj fields => fields.lookup name
  | _ => none

/-- The JS expression `j.name || dflt`. -/
def Json.fieldOr (j : Json) (name : String) (dflt : Json) : Json :=
  match j.field name with
  | none => dflt
  | some v => if v.isTruthy then v else dflt

/-- The JS expression `j.name || undefined`. -/
def Json.fieldOrUndefined (j : Json) (name : String) : Option Json :=
  match j.field name with
  | none => none
  | some v => if v.isTruthy then some v else none

/-! ### The OpenAI service layer (server/services/openai.ts) -/

/-- CodeGenerationRequest: prompt, optional conversationHistory, optional
currentPrototype (the HTML of the currently active artifact). -/
structure CodeGenerationRequest where
  prompt : String
  conversationHistory : Option (List ChatMessage)
  currentPrototype : Option String

/-- The object literal generateCode builds from the parsed response.  The
fields keep their raw JSON values: JS performs no coercion to string. -/
structure CodeGenerationResponse where
  html : Json
  css : Json
  js : Json
  explanation : Json
  question : Option Json

/-- The result object `{ html: parsed.html || "", css: parsed.css || "", js: parsed.js || "",
explanation: parsed.explanation || "Code generated successfully",
question: parsed.question || undefined }`. -/
def generateCodeResult (parsed : Json) : CodeGenerationResponse :=
  { html := parsed.fieldOr "html" (.jstr "")
    css := parsed.fieldOr "css" (.jstr "")
    js := parsed.fieldOr "js" (.jstr "")
    explanation := parsed.fieldOr "explanation" (.jstr "Code generated successfully")
    question := parsed.fieldOrUndefined "question" }

/-- A value stored in the shared responseCache (it is untyped `any` in the
source: generateCode stores response objects, generateChatResponse strings). -/
inductive CachedValue where
  | code (r : CodeGenerationResponse)
  | chat (s : String)

/-- JS truthiness of a cached value (`if (cachedResult) return cachedResult`):
response objects are truthy; a string is truthy iff nonempty. -/
def CachedValue.isTruthy : CachedValue → Bool
  | .code _ => true
  | .chat s => s != ""

/-- The shared responseCache. -/
def ResponseCache : Type := Cache CachedValue

/-- The failure classes of the spec.  The source throws plain Errors;
"OpenAI API key not configured" is the ConfigurationError, and the
no-content throw and the catch-all rethrow ("Failed to generate ...")
are the UpstreamError. -/
inductive GenError where
  | configurationError
  | upstreamError

/-- Outcome of the `openai.chat.completions.create` network call:
the promise rejects, or it resolves with `choices[0].message.content`
(null or a string). -/
inductive ApiOutcome where
  | apiError
  | success (content : Option String)

/-- The flag `isModification = request.currentPrototype &&
request.currentPrototype.trim().length > 0`, as the Bool the ternaries
branch on (undefined and "" are falsy). -/
def isModification (currentPrototype : Option String) : Bool :=
  match currentPrototype with
  | none => false
  | some s => if s = "" then false else decide ((jsTrim s).length > 0)

/-- The modification-branch system prompt up to the
`${request.currentPrototype}` interpolation point.
Braces of the JSON example are written \x7b/\x7d and apostrophes \x27. -/
def modificationPromptIntro : String :=
  "You are an expert frontend developer specialized in modifying existing web prototypes with targeted changes.\n"
    ++ "\n"
    ++ "CRITICAL: You are modifying an existing HTML prototype. You MUST preserve the EXACT same structure, layout, colors, styling, and content. Only make the specific change requested by the user.\n"
    ++ "\n"
    ++ "STRICT MODIFICATION RULES:\n"
    ++ "1. KEEP THE EXACT SAME HTML STRUCTURE - do not change the overall layout\n"
    ++ "2. KEEP THE EXACT SAME CSS STYLES - do not modify colors, fonts, spacing, or layout\n"
    ++ "3. KEEP THE EXACT SAME CONTENT - do not change any text, images, or sections unless specifically requested\n"
    ++ "4. KEEP THE EXACT SAME SECTIONS - do not add, remove, or reorder sections\n"
    ++ "5. KEEP THE EXACT SAME HEADER AND FOOTER - do not modify navigation or footer content unless specifically requested\n"
    ++ "6. ONLY modify the specific element or content that the user explicitly asks to change\n"
    ++ "7. If adding content, add it to the appropriate existing section without changing the section structure\n"
    ++ "8. If changing text, change only the specific text mentioned, not the entire section\n"
    ++ "9. If changing colors, change only the specific element mentioned, not the entire color scheme\n"
    ++ "10. Maintain the complete HTML document structure exactly as it is\n"
    ++ "\n"
    ++ "CURRENT PROTOTYPE HTML:\n"

/-- The modification-branch system prompt after the interpolation point. -/
def modificationPromptOutro : String :=
  "\n"
    ++ "\n"
    ++ "IMPORTANT: Your response must be a complete, valid HTML document that looks IDENTICAL to the current prototype except for the specific change requested. The layout, colors, fonts, spacing, and structure must remain exactly the same.\n"
    ++ "\n"
    ++ "RESPONSE FORMAT: Return a JSON object with this exact structure:\n"
    ++ "\x7b\"html\": \"complete modified HTML document\", \"explanation\": \"brief description of the specific change made\"\x7d\n"
    ++ "\n"
    ++ "The html field must contain the complete HTML document with your modification applied."

/-- The modification-branch system prompt (template literal of the
`isModification` arm), with `${request.currentPrototype}` interpolated. -/
def modificationSystemPrompt (currentPrototype : String) : String :=
  modificationPromptIntro ++ currentPrototype ++ modificationPromptOutro

/-- The fresh-generation system prompt (template literal of the else arm). -/
def freshSystemPrompt : String :=
  "You are an expert frontend developer specialized in creating beautiful, modern web prototypes. \n"
    ++ "\n"
    ++ "CRITICAL: You are creating standalone websites/landing pages/applications based on user requests. DO NOT create interfaces that look like chat applications, development tools, or code editors unless specifically requested.\n"
    ++ "\n"
    ++ "GENERATE CODE PROACTIVELY: When users provide sufficient information (like name, education, work experience, skills, certifications), immediately generate the complete website. Don\x27t ask for more details unless absolutely critical information is missing.\n"
    ++ "\n"
    ++ "IMPORTANT INSTRUCTIONS:\n"
    ++ "1. For CV/Resume websites: If user provides name, education, work experience, skills, or certifications - GENERATE THE WEBSITE IMMEDIATELY\n"
    ++ "2. For business websites: If user provides business name, services, or contact info - GENERATE THE WEBSITE IMMEDIATELY  \n"
    ++ "3. For portfolios: If user provides name, skills, projects, or experience - GENERATE THE WEBSITE IMMEDIATELY\n"
    ++ "4. Only ask for details if absolutely critical information is missing (like user\x27s name for a personal website)\n"
    ++ "5. Generate complete, working HTML prototypes with embedded CSS and JavaScript\n"
    ++ "6. Create the actual website/application the user is requesting (e.g., business landing page, portfolio, e-commerce site)\n"
    ++ "7. Use modern CSS techniques (Flexbox, Grid, CSS Variables)\n"
    ++ "8. Make designs responsive and mobile-friendly\n"
    ++ "9. CRITICAL: Always include Tailwind CSS via CDN: <script src=\"https://cdn.tailwindcss.com\"></script> in the <head> section\n"
    ++ "10. Include proper semantic HTML\n"
    ++ "11. Add interactive elements when appropriate\n"
    ++ "12. Make the design visually appealing with good typography, spacing, and colors\n"
    ++ "13. Always respond with valid JSON in one of these formats:\n"
    ++ "\n"
    ++ "For questions (only if absolutely critical): \x7b\"question\": \"What is your name?\", \"html\": \"\", \"explanation\": \"Need user name for personal website\"\x7d\n"
    ++ "For code: \x7b\"html\": \"complete HTML with embedded CSS and JS\", \"explanation\": \"brief explanation\"\x7d\n"
    ++ "\n"
    ++ "14. The HTML should be a complete document with DOCTYPE, head, and body\n"
    ++ "15. Embed CSS in <style> tags in the head\n"
    ++ "16. Embed JavaScript in <script> tags before closing body tag\n"
    ++ "17. Use CDN links for external libraries (Tailwind, fonts, icons)\n"
    ++ "18. Make it production-ready and visually impressive\n"
    ++ "19. Focus on creating the specific type of website requested (landing page, portfolio, etc.) - NOT development tools or chat interfaces"

/-- The selection `systemPrompt = isModification ? ... : ...` (the modification arm
interpolates the current prototype; `${undefined}` cannot occur because
isModification is then false). -/
def generateCodeSystemPrompt (request : CodeGenerationRequest) : String :=
  if isModification request.currentPrototype then
    modificationSystemPrompt (request.currentPrototype.getD "")
  else
    freshSystemPrompt

/-- The selection `temperature: isModification ? 0.1 : 0.7` (exact decimals, as rationals). -/
def generateCodeTemperature (request : CodeGenerationRequest) : ℚ :=
  if isModification request.currentPrototype then 1 / 10 else 7 / 10

/-- The key generateCode computes (openai.ts line 29):
`createCacheKey(request.prompt, request.conversationHistory,
request.currentPrototype)`.  createCacheKey declares exactly two
parameters, so the third argument — the current artifact — is dropped at
the call boundary and does not reach the fingerprint. -/
def generateCodeCacheKey (request : CodeGenerationRequest) : String :=
  createCacheKey request.prompt request.conversationHistory

/-- The part of generateCode after the cache miss: the network call (oracle
`api`), the `if (!content) throw`, JSON.parse (oracle `parseJson`; none
models a parse exception), building the result, and
`responseCache.set(cacheKey, result, 5)`.  Every throw inside the try is
rethrown by the catch as "Failed to generate code: ...", an UpstreamError. -/
def generateCodeAfterMiss (parseJson : String → Option Json) (cacheKey : String)
    (cache : ResponseCache) (now : Nat) (api : ApiOutcome) :
    Except GenError CachedValue × ResponseCache :=
  match api with
  | .apiError => (.error .upstreamError, cache)
  | .success content =>
    match content with
    | none => (.error .upstreamError, cache)
    | some c =>
      if c = "" then (.error .upstreamError, cache)
      else
        match parseJson c with
        | none => (.error .upstreamError, cache)
        | some parsed =>
          let result := generateCodeResult parsed
          (.ok (.code result), SimpleCache.set cache cacheKey (.code result) now 5)

/-- generateCode: throw unless an API key is configured; compute the cache
key; `if (cachedResult) return cachedResult`; otherwise call the API and
cache a successful result for 5 minutes.  Returns the outcome together with
the responseCache state after the call. -/
def generateCode (parseJson : String → Option Json) (apiKey : String)
    (request : CodeGenerationRequest) (cache : ResponseCache) (now : Nat)
    (api : ApiOutcome) : Except GenError CachedValue × ResponseCache :=
  if apiKey = "" then
    (.error .configurationError, cache)
  else
    let cacheKey := generateCodeCacheKey request
    match SimpleCache.get cache cacheKey now with
    | (some cachedResult, cache₁) =>
      if cachedResult.isTruthy then (.ok cachedResult, cache₁)
      else generateCodeAfterMiss parseJson cacheKey cache₁ now api
    | (none, cache₁) => generateCodeAfterMiss parseJson cacheKey cache₁ now api

/-- The fixed fallback reply of generateChatResponse. -/
def chatFallback : String :=
  "I apologize, but I couldn\x27t generate a response. Please try again."

/-- The chat cache key, namespaced: the string chat: prepended to createCacheKey(prompt, conversationHistory). -/
def chatCacheKey (prompt : String)
    (conversationHistory : Option (List ChatMessage)) : String :=
  "chat:" ++ createCacheKey prompt conversationHistory

/-- The part of generateChatResponse after the cache miss:
`const result = response.choices[0].message.content || fallback;
responseCache.set(cacheKey, result, 2); return result;`. -/
def generateChatAfterMiss (cacheKey : String) (cache : ResponseCache)
    (now : Nat) (api : ApiOutcome) :
    Except GenError CachedValue × ResponseCache :=
  match api with
  | .apiError => (.error .upstreamError, cache)
  | .success content =>
    let result :=
      match content with
      | none => chatFallback
      | some s => if s = "" then chatFallback else s
    (.ok (.chat result), SimpleCache.set cache cacheKey (.chat result) now 2)

/-- generateChatResponse: throw unless an API key is configured; look up the
chat-namespaced key; `if (cachedResult) return cachedResult`; otherwise call
the API, fall back on empty content, and cache the reply for 2 minutes. -/
def generateChatResponse (apiKey : String) (prompt : String)
    (conversationHistory : Option (List ChatMessage)) (cache : ResponseCache)
    (now : Nat) (api : ApiOutcome) :
    Except GenError CachedValue × ResponseCache :=
  if apiKey = "" then
    (.error .configurationError, cache)
  else
    let cacheKey := chatCacheKey prompt conversationHistory
    match SimpleCache.get cache cacheKey now with
    | (some cachedResult, cache₁) =>
      if cachedResult.isTruthy then (.ok cachedResult, cache₁)
      else generateChatAfterMiss cacheKey cache₁ now api
    | (none, cache₁) => generateChatAfterMiss cacheKey cache₁ now api

/-- The JS expression `a || b` on an optional string (undefined and the
empty string are falsy). -/
def jsOrStr (a : Option String) (b : String) : String :=
  match a with
  | none => b
  | some s => if s = "" then b else s

/-- Resolution of the client credential:
`process.env.OPENAI_API_KEY || process.env.OPENAI_API_KEY_ENV_VAR || ""`.
When no credential is configured both variables are unset and the result is
the empty string, which `if (!openai.apiKey)` treats as missing. -/
def resolveApiKey (env1 env2 : Option String) : String :=
  jsOrStr env1 (jsOrStr env2 "")

/-! ### Spec-side definitions (written from the words of the spec, to be
compared with the definitions embedded from the source) -/

/-- Collapse of whitespace as the spec words it: each maximal whitespace run
becomes one single space (the run is a leading whitespace character followed
by the remaining whitespace characters, removed with dropWhile). -/
def collapseRuns : List Char → List Char
  | [] => []
  | c :: rest =>
    if c.isWhitespace then
      ' ' :: collapseRuns (rest.dropWhile Char.isWhitespace)
    else
      c :: collapseRuns rest
termination_by l => l.length
decreasing_by
  · exact Nat.lt_succ_of_le (List.dropWhile_suffix _).sublist.length_le
  · exact Nat.lt_succ_of_le (Nat.le_refl _)

/-- The fingerprint as the spec describes it: the prompt truncated to 200
characters, joined with the last 3 conversation turns (taken from the tail),
each rendered as role plus content truncated to 100 characters, with all
whitespace runs collapsed to single spaces. -/
def cacheKeyFingerprintSpec (prompt : String)
    (conversationHistory : Option (List ChatMessage)) : String :=
  let turns :=
    match conversationHistory with
    | none => ([] : List ChatMessage)
    | some h => (h.reverse.take 3).reverse
  String.mk (collapseRuns
    (jsSlice prompt 200 ++ "|"
      ++ jsJoin "|" (turns.map
          (fun m => m.role ++ ":" ++ jsSlice m.content 100))).data)

/-! ### Concrete instances used by individual claims -/

/-- A cache holding one entry under key k, stored at time 100 with a 50 ms
ttl (exercises the lookup claim). -/
def c4Cache : Cache Nat := fun k => if k = "k" then some ⟨42, 100, 50⟩ else none

/-- A cache holding an older entry under key a (exercises the overwrite
claim). -/
def c5Cache : Cache Nat := fun k => if k = "a" then some ⟨1, 0, 60000⟩ else none

/-- A parse oracle recognising exactly the empty JSON object. -/
def c2Parse : String → Option Json :=
  fun c => if c = "\x7b\x7d" then some (.jobj []) else none

/-- A parse oracle returning a fixed well-formed generation payload. -/
def c1Parse : String → Option Json :=
  fun _ => some (.jobj [("html", .jstr "<p>v1</p>"), ("explanation", .jstr "built")])

/-! ### Helper lemmas -/

/-- A string has positive length exactly when it is nonempty. -/
theorem string_length_pos_iff (t : String) : ¬ (t.length > 0) ↔ t = "" := by
  cases t with
  | mk data =>
    cases data with
    | nil => simp [String.length]
    | cons c cs =>
      constructor
      · intro h
        exfalso
        exact h (by simp [String.length])
      · intro h
        exact absurd h (by simp [String.ext_iff])

/-- The isModification flag is false exactly for a missing artifact or one
that trims to the empty string. -/
theorem isModification_eq_false_iff (cp : Option String) :
    isModification cp = false ↔
      cp = none ∨ ∃ s, cp = some s ∧ jsTrim s = "" := by
  cases cp with
  | none => simp [isModification]
  | some s =>
    by_cases hs : s = ""
    · subst hs
      simp [isModification]
      decide
    · simp only [isModification, if_neg hs]
      constructor
      · intro h
        refine .inr ⟨s, rfl, ?_⟩
        have := of_decide_eq_false h
        exact (string_length_pos_iff _).mp this
      · rintro (h | ⟨s', hs', ht'⟩)
        · exact absurd h (by simp)
        · injection hs' with he
          subst he
          exact decide_eq_false (by simpa using (string_length_pos_iff _).mpr ht')

/-- The scanning collapse agrees with the maximal-run collapse; the flag
true corresponds to standing inside a run, where the remaining run
characters are dropped. -/
theorem collapseWsGo_eq_runs :
    ∀ l : List Char,
      collapseWsGo false l = collapseRuns l
        ∧ collapseWsGo true l = collapseRuns (l.dropWhile Char.isWhitespace)
  | [] => by
    constructor <;> simp [collapseWsGo, collapseRuns]
  | c :: rest => by
    obtain ⟨ihf, iht⟩ := collapseWsGo_eq_runs rest
    by_cases hc : c.isWhitespace
    · constructor
      · rw [collapseWsGo, collapseRuns.eq_def]
        simp [hc, iht]
      · rw [collapseWsGo, List.dropWhile_cons]
        simp [hc, iht]
    · constructor
      · rw [collapseWsGo, collapseRuns.eq_def]
        simp [hc, ihf]
      · rw [collapseWsGo, List.dropWhile_cons, collapseRuns.eq_def]
        simp [hc, ihf]

/-- Taking the last n elements via double reverse is dropping all but n. -/
theorem lastN_eq {α : Type} (l : List α) (n : Nat) :
    (l.reverse.take n).reverse = l.drop (l.length - n) := by
  rw [← List.rtake_eq_reverse_take_reverse, List.rtake]

/-- After a lookup that reported absence, the map holds nothing under the
looked-up key (either it held nothing before, or the expired entry was
deleted by the lookup). -/
theorem get_miss_deletes {α : Type} (c : Cache α) (k : String) (now : Nat)
    (h : (SimpleCache.get c k now).1 = none) :
    (SimpleCache.get c k now).2 k = none := by
  cases hc : c k with
  | none => simp [SimpleCache.get, hc]
  | some e =>
    by_cases hexp : now - e.timestamp > e.ttl
    · simp [SimpleCache.get, hc, hexp]
    · simp [SimpleCache.get, hc, hexp] at h

/-- On a cache miss, generateCode reduces to its post-miss continuation on
the post-lookup cache. -/
theorem generateCode_miss_eq (parseJson : String → Option Json)
    (apiKey : String) (request : CodeGenerationRequest) (cache : ResponseCache)
    (now : Nat) (api : ApiOutcome)
    (hkey : apiKey ≠ "")
    (hmiss : (SimpleCache.get cache (generateCodeCacheKey request) now).1 = none) :
    generateCode parseJson apiKey request cache now api =
      generateCodeAfterMiss parseJson (generateCodeCacheKey request)
        (SimpleCache.get cache (generateCodeCacheKey request) now).2 now api := by
  rcases hget : SimpleCache.get cache (generateCodeCacheKey request) now with ⟨v, c₁⟩
  have hv : v = none := by simpa [hget] using hmiss
  subst hv
  simp [generateCode, if_neg hkey, hget]

/-- On a cache miss, generateChatResponse reduces to its post-miss
continuation on the post-lookup cache. -/
theorem generateChat_miss_eq (apiKey : String) (prompt : String)
    (history : Option (List ChatMessage)) (cache : ResponseCache)
    (now : Nat) (api : ApiOutcome)
    (hkey : apiKey ≠ "")
    (hmiss : (SimpleCache.get cache (chatCacheKey prompt history) now).1 = none) :
    generateChatResponse apiKey prompt history cache now api =
      generateChatAfterMiss (chatCacheKey prompt history)
        (SimpleCache.get cache (chatCacheKey prompt history) now).2 now api := by
  rcases hget : SimpleCache.get cache (chatCacheKey prompt history) now with ⟨v, c₁⟩
  have hv : v = none := by simpa [hget] using hmiss
  subst hv
  simp [generateChatResponse, if_neg hkey, hget]

/-! ### The claims -/

/-- C1: the claim asserts the cache fingerprint incorporates the current
artifact, so the same prompt against two different artifacts never shares a
cache entry.  The code refutes it: createCacheKey takes two parameters and
drops the third argument of the call, so the fingerprint is independent of
the artifact (first conjunct, for all inputs); concretely, a request against
the artifact `<html><body>v1</body></html>` is answered from the cache entry
produced by the same prompt with no artifact, even though its own API call
would have failed (second conjunct). -/
theorem c1_artifact_not_in_fingerprint :
    (∀ (p : String) (h : Option (List ChatMessage)) (a₁ a₂ : Option String),
      generateCodeCacheKey ⟨p, h, a₁⟩ = generateCodeCacheKey ⟨p, h, a₂⟩)
    ∧ (generateCode c1Parse "key"
          ⟨"make a landing page", none, some "<html><body>v1</body></html>"⟩
          (generateCode c1Parse "key" ⟨"make a landing page", none, none⟩
            emptyCache 0 (.success (some "x"))).2
          1000 .apiError).1 =
        .ok (.code (generateCodeResult
          (.jobj [("html", .jstr "<p>v1</p>"), ("explanation", .jstr "built")]))) := by
  refine ⟨fun p h a₁ a₂ => rfl, ?_⟩
  rfl

/-- C2 counterexample: the claim asserts that content parsing as JSON but
missing the required html and explanation fields makes generateCode throw an
UpstreamError.  At the concrete input, the empty JSON object, generateCode
instead returns an ok result with the fields defaulted. -/
theorem c2_counterexample :
    (generateCode c2Parse "key" ⟨"make a site", none, none⟩ emptyCache 0
        (.success (some "\x7b\x7d"))).1 =
      .ok (.code ⟨.jstr "", .jstr "", .jstr "",
        .jstr "Code generated successfully", none⟩) := by
  rfl

/-- C2 (amended): when the content parses as JSON, generateCode returns a
defaulted result instead of failing: missing (or falsy) html defaults to the
empty string and missing explanation to "Code generated successfully". -/
theorem c2_missing_fields_defaulted (parseJson : String → Option Json)
    (apiKey : String) (request : CodeGenerationRequest) (cache : ResponseCache)
    (now : Nat) (c : String) (j : Json)
    (hkey : apiKey ≠ "")
    (hmiss : (SimpleCache.get cache (generateCodeCacheKey request) now).1 = none)
    (hc : c ≠ "")
    (hparse : parseJson c = some j) :
    (generateCode parseJson apiKey request cache now (.success (some c))).1 =
      .ok (.code (generateCodeResult j))
    ∧ (j.field "html" = none → (generateCodeResult j).html = .jstr "")
    ∧ (j.field "explanation" = none →
        (generateCodeResult j).explanation =
          .jstr "Code generated successfully") := by
  refine ⟨?_, ?_, ?_⟩
  · rw [generateCode_miss_eq parseJson apiKey request cache now _ hkey hmiss]
    simp [generateCodeAfterMiss, if_neg hc, hparse]
  · intro hfield
    simp [generateCodeResult, Json.fieldOr, hfield]
  · intro hfield
    simp [generateCodeResult, Json.fieldOr, hfield]

/-- C2 witness: the amended claim at the empty JSON object. -/
theorem c2_amended_witness :
    (generateCode c2Parse "key" ⟨"p", none, none⟩ emptyCache 0
        (.success (some "\x7b\x7d"))).1 =
      .ok (.code (generateCodeResult (.jobj [])))
    ∧ (generateCodeResult (.jobj [])).html = .jstr ""
    ∧ (generateCodeResult (.jobj [])).explanation =
        .jstr "Code generated successfully" := by
  have h := c2_missing_fields_defaulted c2Parse "key" ⟨"p", none, none⟩
    emptyCache 0 "\x7b\x7d" (.jobj []) (by decide) rfl (by decide) (by rfl)
  exact ⟨h.1, h.2.1 rfl, h.2.2 rfl⟩

/-- C3: when the call reaches the API (miss) and the API call errors, or
returns null or empty content, or the content does not parse, generateCode
propagates a typed UpstreamError and the cache afterwards holds no entry
under the fingerprint of the request. -/
theorem c3_failure_leaves_no_entry (parseJson : String → Option Json)
    (apiKey : String) (request : CodeGenerationRequest) (cache : ResponseCache)
    (now : Nat) (api : ApiOutcome)
    (hkey : apiKey ≠ "")
    (hmiss : (SimpleCache.get cache (generateCodeCacheKey request) now).1 = none)
    (hfail : api = .apiError ∨ api = .success none
      ∨ ∃ c, api = .success (some c) ∧ (c = "" ∨ parseJson c = none)) :
    (generateCode parseJson apiKey request cache now api).1 = .error .upstreamError
    ∧ (generateCode parseJson apiKey request cache now api).2
        (generateCodeCacheKey request) = none := by
  rw [generateCode_miss_eq parseJson apiKey request cache now api hkey hmiss]
  rcases hfail with h | h | ⟨c, h, hc⟩
  · subst h
    exact ⟨rfl, get_miss_deletes _ _ _ hmiss⟩
  · subst h
    exact ⟨rfl, get_miss_deletes _ _ _ hmiss⟩
  · subst h
    rcases hc with hc | hc
    · subst hc
      exact ⟨rfl, get_miss_deletes _ _ _ hmiss⟩
    · by_cases hcc : c = ""
      · subst hcc
        exact ⟨rfl, get_miss_deletes _ _ _ hmiss⟩
      · simp only [generateCodeAfterMiss, if_neg hcc, hc]
        exact ⟨trivial, get_miss_deletes _ _ _ hmiss⟩

/-- C3 witness: a failing API call on the empty cache. -/
theorem c3_witness :
    (SimpleCache.get (emptyCache (α := CachedValue))
        (generateCodeCacheKey ⟨"hello", none, none⟩) 0).1 = none
    ∧ (generateCode (fun _ => none) "k" ⟨"hello", none, none⟩ emptyCache 0
        .apiError).1 = .error .upstreamError
    ∧ (generateCode (fun _ => none) "k" ⟨"hello", none, none⟩ emptyCache 0
        .apiError).2 (generateCodeCacheKey ⟨"hello", none, none⟩) = none := by
  have h := c3_failure_leaves_no_entry (fun _ => none) "k" ⟨"hello", none, none⟩
    emptyCache 0 .apiError (by decide) rfl (.inl rfl)
  exact ⟨rfl, h.1, h.2⟩

/-- C4: lookup returns the stored value exactly when an entry is present and
now − storedAt ≤ ttl (so the boundary now − storedAt = ttl counts as valid);
when the entry under the key is expired, the lookup deletes it and reports
absence; when no entry is present the lookup changes nothing. -/
theorem c4_lookup_semantics {α : Type} (c : Cache α) (k : String) (now : Nat) :
    (∀ v : α, (SimpleCache.get c k now).1 = some v ↔
        ∃ e, c k = some e ∧ e.data = v ∧ now - e.timestamp ≤ e.ttl)
    ∧ (∀ e, c k = some e → e.ttl < now - e.timestamp →
        SimpleCache.get c k now =
          (none, fun kk => if kk = k then none else c kk))
    ∧ (c k = none → SimpleCache.get c k now = (none, c)) := by
  refine ⟨?_, ?_, ?_⟩
  · intro v
    constructor
    · intro hv
      cases h : c k with
      | none => simp [SimpleCache.get, h] at hv
      | some e =>
        by_cases hexp : now - e.timestamp > e.ttl
        · simp [SimpleCache.get, h, hexp] at hv
        · refine ⟨e, rfl, ?_, Nat.not_lt.mp hexp⟩
          simp [SimpleCache.get, h, hexp] at hv
          exact hv
    · rintro ⟨e, h, rfl, hle⟩
      have hexp : ¬ (now - e.timestamp > e.ttl) := Nat.not_lt.mpr hle
      simp [SimpleCache.get, h, hexp]
  · intro e h hexp
    simp [SimpleCache.get, h, hexp]
  · intro h
    simp [SimpleCache.get, h]

/-- C4 witness: a hit within ttl (boundary inclusive), an expired entry
deleted by the lookup, and an absent key left untouched. -/
theorem c4_witness :
    ((SimpleCache.get c4Cache "k" 140).1 = some 42)
    ∧ (SimpleCache.get c4Cache "k" 151 =
        (none, fun kk => if kk = "k" then none else c4Cache kk))
    ∧ (SimpleCache.get c4Cache "other" 140 = (none, c4Cache)) :=
  ⟨((c4_lookup_semantics c4Cache "k" 140).1 42).mpr
      ⟨⟨42, 100, 50⟩, rfl, rfl, by decide⟩,
   (c4_lookup_semantics c4Cache "k" 151).2.1 ⟨42, 100, 50⟩ rfl (by decide),
   (c4_lookup_semantics c4Cache "other" 140).2.2 rfl⟩

/-- C5: store inserts or overwrites, stamping the entry with the store time
(first conjunct, for any prior cache state) and touching no other key; a
lookup immediately after the store returns the value, and expiry is measured
from the latest store: the value survives lookup at time t exactly while
t − now ≤ ttl, whatever was stored before. -/
theorem c5_store_semantics {α : Type} (c : Cache α) (k : String) (v : α)
    (now ttlMin : Nat) :
    ((SimpleCache.set c k v now ttlMin) k = some ⟨v, now, ttlMin * 60 * 1000⟩)
    ∧ (∀ kk, kk ≠ k → (SimpleCache.set c k v now ttlMin) kk = c kk)
    ∧ ((SimpleCache.get (SimpleCache.set c k v now ttlMin) k now).1 = some v)
    ∧ (∀ t, (SimpleCache.get (SimpleCache.set c k v now ttlMin) k t).1 =
        if t - now > ttlMin * 60 * 1000 then none else some v) := by
  refine ⟨?_, ?_, ?_, ?_⟩
  · simp [SimpleCache.set]
  · intro kk hkk
    simp [SimpleCache.set, hkk]
  · simp [SimpleCache.get, SimpleCache.set]
  · intro t
    by_cases hexp : t - now > ttlMin * 60 * 1000
    · simp [SimpleCache.get, SimpleCache.set, hexp]
    · simp [SimpleCache.get, SimpleCache.set, hexp]

/-- C5 witness: overwriting an older entry restamps it at the store time;
the lookup right after returns the new value and the new entry expires
relative to the re-store, not the original store. -/
theorem c5_witness :
    ((SimpleCache.set c5Cache "a" 7 500 5) "a" = some ⟨7, 500, 300000⟩)
    ∧ ((SimpleCache.set c5Cache "a" 7 500 5) "b" = c5Cache "b")
    ∧ ((SimpleCache.get (SimpleCache.set c5Cache "a" 7 500 5) "a" 500).1 = some 7)
    ∧ ((SimpleCache.get (SimpleCache.set c5Cache "a" 7 500 5) "a" 300501).1 = none) :=
  ⟨(c5_store_semantics c5Cache "a" 7 500 5).1,
   (c5_store_semantics c5Cache "a" 7 500 5).2.1 "b" (by decide),
   (c5_store_semantics c5Cache "a" 7 500 5).2.2.1,
   by rw [(c5_store_semantics c5Cache "a" 7 500 5).2.2.2 300501]; decide⟩

/-- C6: the chat key is namespaced and never equals a code-generation key
for the same input; a successful code generation stores its result under the
request fingerprint with a 5 minute ttl; a successful chat reply stores under
the namespaced key with a 2 minute ttl; the two ttls differ. -/
theorem c6_differentiated_ttls :
    (∀ (p : String) (h : Option (List ChatMessage)) (cp : Option String),
      chatCacheKey p h ≠ generateCodeCacheKey ⟨p, h, cp⟩)
    ∧ (∀ (parseJson : String → Option Json) (apiKey : String)
        (request : CodeGenerationRequest) (cache : ResponseCache) (now : Nat)
        (c : String) (j : Json), apiKey ≠ "" →
        (SimpleCache.get cache (generateCodeCacheKey request) now).1 = none →
        c ≠ "" → parseJson c = some j →
        (generateCode parseJson apiKey request cache now (.success (some c))).2
            (generateCodeCacheKey request) =
          some ⟨.code (generateCodeResult j), now, 5 * 60 * 1000⟩)
    ∧ (∀ (apiKey p : String) (h : Option (List ChatMessage))
        (cache : ResponseCache) (now : Nat) (content : Option String),
        apiKey ≠ "" →
        (SimpleCache.get cache (chatCacheKey p h) now).1 = none →
        ∃ r, (generateChatResponse apiKey p h cache now (.success content)).2
            (chatCacheKey p h) = some ⟨.chat r, now, 2 * 60 * 1000⟩)
    ∧ (5 * 60 * 1000 : Nat) ≠ 2 * 60 * 1000 := by
  refine ⟨?_, ?_, ?_, by decide⟩
  · intro p h cp heq
    have hlen := congrArg String.length heq
    simp only [chatCacheKey, generateCodeCacheKey, String.length_append] at hlen
    have h5 : ("chat:" : String).length = 5 := rfl
    rw [h5] at hlen
    omega
  · intro parseJson apiKey request cache now c j hkey hmiss hc hparse
    rw [generateCode_miss_eq parseJson apiKey request cache now _ hkey hmiss]
    simp [generateCodeAfterMiss, if_neg hc, hparse, SimpleCache.set]
  · intro apiKey p h cache now content hkey hmiss
    rw [generateChat_miss_eq apiKey p h cache now _ hkey hmiss]
    rcases content with _ | s
    · exact ⟨chatFallback, by simp [generateChatAfterMiss, SimpleCache.set]⟩
    · by_cases hs : s = ""
      · subst hs
        exact ⟨chatFallback, by simp [generateChatAfterMiss, SimpleCache.set]⟩
      · exact ⟨s, by simp [generateChatAfterMiss, hs, SimpleCache.set]⟩

/-- C6 witness: concrete stores with the 5 minute and 2 minute ttls under
distinct keys. -/
theorem c6_witness :
    chatCacheKey "p" none ≠ generateCodeCacheKey ⟨"p", none, none⟩
    ∧ (generateCode (fun _ => some (.jobj [])) "k" ⟨"p", none, none⟩ emptyCache 5
        (.success (some "q"))).2 (generateCodeCacheKey ⟨"p", none, none⟩) =
        some ⟨.code (generateCodeResult (.jobj [])), 5, 5 * 60 * 1000⟩
    ∧ (∃ r, (generateChatResponse "k" "p" none emptyCache 7
        (.success (some "hi"))).2 (chatCacheKey "p" none) =
          some ⟨.chat r, 7, 2 * 60 * 1000⟩) :=
  ⟨c6_differentiated_ttls.1 "p" none none,
   c6_differentiated_ttls.2.1 (fun _ => some (.jobj [])) "k" ⟨"p", none, none⟩
     emptyCache 5 "q" (.jobj []) (by decide) rfl (by decide) rfl,
   c6_differentiated_ttls.2.2.1 "k" "p" none emptyCache 7 (some "hi")
     (by decide) rfl⟩

/-- C7: with no credential configured the resolved API key is empty and both
generateCode and generateChatResponse fail with the ConfigurationError,
independently of the network oracle (no call is consulted) and with the
cache returned exactly as it was (no lookup effect, no store). -/
theorem c7_missing_credential_fails_fast (parseJson : String → Option Json)
    (request : CodeGenerationRequest) (cache : ResponseCache) (now : Nat)
    (api : ApiOutcome) (prompt : String)
    (history : Option (List ChatMessage)) :
    resolveApiKey none none = ""
    ∧ generateCode parseJson (resolveApiKey none none) request cache now api =
        (.error .configurationError, cache)
    ∧ generateChatResponse (resolveApiKey none none) prompt history cache now api =
        (.error .configurationError, cache) := by
  refine ⟨rfl, ?_, ?_⟩ <;>
    simp [generateCode, generateChatResponse, resolveApiKey, jsOrStr]

/-- C8: the fingerprint embedded from the source equals, on every input, the
fingerprint built as the spec words it — prompt truncated to 200 characters,
joined with the last 3 turns each rendered as role plus content truncated to
100 characters, with whitespace runs collapsed to single spaces.  Both are
pure functions, so computing either twice yields identical strings. -/
theorem c8_fingerprint_spec (prompt : String)
    (conversationHistory : Option (List ChatMessage)) :
    createCacheKey prompt conversationHistory =
      cacheKeyFingerprintSpec prompt conversationHistory := by
  unfold createCacheKey cacheKeyFingerprintSpec collapseWs
  cases conversationHistory with
  | none => exact congrArg String.mk (collapseWsGo_eq_runs _).1
  | some h =>
    show String.mk (collapseWsGo false (jsSlice prompt 200 ++ "|"
        ++ jsJoin "|" ((h.drop (h.length - 3)).map
          (fun m => m.role ++ ":" ++ jsSlice m.content 100))).data) =
      String.mk (collapseRuns (jsSlice prompt 200 ++ "|"
        ++ jsJoin "|" (((h.reverse.take 3).reverse).map
          (fun m => m.role ++ ":" ++ jsSlice m.content 100))).data)
    rw [lastN_eq h 3]
    exact congrArg String.mk (collapseWsGo_eq_runs _).1

/-- C9: generateCode takes the fresh-generation branch — fresh system
instruction and temperature 0.7 — exactly when the current prototype is
missing or trims to the empty string, and otherwise the modification branch:
temperature 0.1 and a system instruction embedding the artifact verbatim. -/
theorem c9_branch_selection (request : CodeGenerationRequest) :
    ((generateCodeTemperature request = 7 / 10
        ∧ generateCodeSystemPrompt request = freshSystemPrompt)
      ↔ (request.currentPrototype = none
          ∨ ∃ s, request.currentPrototype = some s ∧ jsTrim s = ""))
    ∧ (∀ s, request.currentPrototype = some s → jsTrim s ≠ "" →
        generateCodeTemperature request = 1 / 10
        ∧ ∃ pre post, generateCodeSystemPrompt request = pre ++ s ++ post) := by
  constructor
  · constructor
    · rintro ⟨htemp, _⟩
      rw [← isModification_eq_false_iff]
      cases hmod : isModification request.currentPrototype
      · rfl
      · exfalso
        rw [generateCodeTemperature, hmod] at htemp
        norm_num at htemp
    · intro hcase
      have hmod : isModification request.currentPrototype = false :=
        (isModification_eq_false_iff _).mpr hcase
      simp [generateCodeTemperature, generateCodeSystemPrompt, hmod]
  · intro s hs htrim
    have hmod : isModification request.currentPrototype = true := by
      cases hmm : isModification request.currentPrototype
      · exfalso
        rcases (isModification_eq_false_iff _).mp hmm with h | ⟨s', hs', ht'⟩
        · rw [hs] at h
          exact Option.noConfusion h
        · rw [hs] at hs'
          injection hs' with he
          subst he
          exact htrim ht'
      · rfl
    refine ⟨by simp [generateCodeTemperature, hmod], ?_⟩
    have hmod' : isModification (some s) = true := by
      rw [← hs]
      exact hmod
    refine ⟨modificationPromptIntro, modificationPromptOutro, ?_⟩
    simp [generateCodeSystemPrompt, modificationSystemPrompt, hs, hmod']

/-- C9 witness: a whitespace-only prototype selects the fresh branch; a
nonblank prototype selects the modification branch and is embedded in the
instruction. -/
theorem c9_witness :
    (generateCodeTemperature ⟨"p", none, some "  "⟩ = 7 / 10
      ∧ generateCodeSystemPrompt ⟨"p", none, some "  "⟩ = freshSystemPrompt)
    ∧ (generateCodeTemperature ⟨"p", none, some "<html>"⟩ = 1 / 10
      ∧ ∃ pre post,
          generateCodeSystemPrompt ⟨"p", none, some "<html>"⟩ =
            pre ++ "<html>" ++ post) :=
  ⟨(c9_branch_selection ⟨"p", none, some "  "⟩).1.mpr
      (.inr ⟨"  ", rfl, by decide⟩),
   (c9_branch_selection ⟨"p", none, some "<html>"⟩).2 "<html>" rfl (by decide)⟩

/-- C10: when the chat completion succeeds with null or empty content,
generateChatResponse returns the fixed fallback string and caches it for
2 minutes under the chat fingerprint, exactly like a genuine reply. -/
theorem c10_empty_chat_fallback (apiKey p : String)
    (h : Option (List ChatMessage)) (cache : ResponseCache) (now : Nat)
    (content : Option String)
    (hkey : apiKey ≠ "")
    (hmiss : (SimpleCache.get cache (chatCacheKey p h) now).1 = none)
    (hcontent : content = none ∨ content = some "") :
    (generateChatResponse apiKey p h cache now (.success content)).1 =
      .ok (.chat chatFallback)
    ∧ (generateChatResponse apiKey p h cache now (.success content)).2
        (chatCacheKey p h) =
      some ⟨.chat chatFallback, now, 2 * 60 * 1000⟩ := by
  rw [generateChat_miss_eq apiKey p h cache now _ hkey hmiss]
  rcases hcontent with hc | hc <;> subst hc <;>
    exact ⟨rfl, by simp [generateChatAfterMiss, SimpleCache.set]⟩

/-- C10 witness: null content on the empty cache yields the cached
fallback. -/
theorem c10_witness :
    (generateChatResponse "k" "hello" none emptyCache 0 (.success none)).1 =
      .ok (.chat chatFallback)
    ∧ (generateChatResponse "k" "hello" none emptyCache 0 (.success none)).2
        (chatCacheKey "hello" none) =
      some ⟨.chat chatFallback, 0, 2 * 60 * 1000⟩ :=
  c10_empty_chat_fallback "k" "hello" none emptyCache 0 none (by decide) rfl
    (.inl rfl)

end Likable
